import Mathlib

/-!
Playback controllers of the GStreamer basic tutorials.

A shallow embedding of `basic-tutorial-12.c` (Controller A, driven by a GLib
main loop and a bus callback) and `basic-tutorial-3.c` (Controller B, driven by
a blocking bus poll and a pad-added callback).

The framework is an external collaborator.  Every call the tutorial code makes
into it is recorded, in program order, as a `Call`; every value the framework
hands back (a state-change result, a bus message, the outcome of a link) is an
input of the embedded function.  A run that blocks forever inside the framework
has exit status `none`.
-/

namespace GstTutorial

/-! ## Framework vocabulary -/

/-- The lifecycle states of an element (`GstState`). -/
inductive GstState where
  | VOID_PENDING
  | NULL
  | READY
  | PAUSED
  | PLAYING
  deriving DecidableEq, Repr

/-- The result of a state request (`GstStateChangeReturn`). -/
inductive GstStateChangeReturn where
  | FAILURE
  | SUCCESS
  | ASYNC
  | NO_PREROLL
  deriving DecidableEq, Repr

/-- The objects a bus message can originate from: the pipeline itself or one of
its children, identified by name. -/
inductive GstObject where
  | pipeline
  | child (name : String)
  deriving DecidableEq, Repr

/-- The two statically built sub-chains of Controller B, each entered through the
`sink` pad of its converter (`a_convert`, `v_convert`). -/
inductive Chain where
  | a_convert
  | v_convert
  deriving DecidableEq, Repr

/-- A bus message, by `GST_MESSAGE_TYPE`, with the payload the tutorials read.
`other` stands for every message type the tutorials do not name. -/
inductive GstMessage where
  | ERROR (src : GstObject) (message : String) (debug_info : Option String)
  | EOS
  | BUFFERING (percent : Int)
  | CLOCK_LOST
  | STATE_CHANGED (src : GstObject) (old_state new_state pending_state : GstState)
  | other (type : Nat)
  deriving DecidableEq, Repr

/-- One call from tutorial code into GLib or GStreamer, with the arguments that
matter. -/
inductive Call where
  | gst_init
  | gst_parse_launch (description : String)
  | gst_element_factory_make (factory name : String)
  | gst_pipeline_new (name : String)
  | gst_bin_add_many (names : List String)
  | gst_element_link_many (names : List String)
  | g_object_set_uri (uri : String)
  | g_signal_connect (signal : String)
  | gst_element_get_bus
  | gst_element_set_state (state : GstState)
  | g_main_loop_new
  | gst_bus_add_signal_watch
  | g_main_loop_run
  | g_main_loop_quit
  | g_main_loop_unref
  | gst_bus_timed_pop_filtered
  | gst_message_unref
  | gst_object_unref_bus
  | gst_object_unref_pipeline
  | gst_element_get_static_pad (element : Chain) (name : String)
  | gst_pad_get_current_caps
  | gst_pad_is_linked (target : Chain)
  | gst_pad_link (target : Chain)
  | gst_object_unref_pad (target : Chain)
  | gst_caps_unref
  | g_print (text : String)
  | g_printerr (text : String)
  deriving DecidableEq, Repr

/-- The name printed for a state (`gst_element_state_get_name`). -/
def gst_element_state_get_name : GstState → String
  | .VOID_PENDING => "VOID_PENDING"
  | .NULL => "NULL"
  | .READY => "READY"
  | .PAUSED => "PAUSED"
  | .PLAYING => "PLAYING"

/-- The conversion `%3d` of `printf`: decimal, right-aligned in a field of width
three. -/
def fmt3d (n : Int) : String :=
  let s := toString n
  String.mk (List.replicate (3 - s.length) ' ') ++ s

/-! ## Controller A: `basic-tutorial-12.c` -/

/-- The fields of `CustomData` the callback branches on; `pipeline` and `loop`
are the single pipeline and the single main loop of the program. -/
structure CustomData where
  is_live : Bool
  deriving DecidableEq, Repr

/-- The bus callback `cb_message`: the calls it makes for one message, together
with the session as the callback leaves it. -/
def cb_message (msg : GstMessage) (data : CustomData) : CustomData × List Call :=
  match msg with
  | .ERROR _ message _ =>
      (data, [.g_print ("Error: " ++ message ++ "\n"),
              .gst_element_set_state .READY,
              .g_main_loop_quit])
  | .EOS =>
      (data, [.gst_element_set_state .READY,
              .g_main_loop_quit])
  | .BUFFERING percent =>
      if data.is_live then (data, [])
      else
        (data, [.g_print ("Buffering (" ++ fmt3d percent ++ "%)\r"),
                if percent < 100 then .gst_element_set_state .PAUSED
                else .gst_element_set_state .PLAYING])
  | .CLOCK_LOST =>
      (data, [.gst_element_set_state .PAUSED,
              .gst_element_set_state .PLAYING])
  | _ => (data, [])

/-- The callback applied to a sequence of messages in order, the session threaded
through: the calls of all invocations, concatenated. -/
def cb_message_seq : List GstMessage → CustomData → CustomData × List Call
  | [], data => (data, [])
  | msg :: rest, data =>
      let r := cb_message msg data
      let r2 := cb_message_seq rest r.1
      (r2.1, r.2 ++ r2.2)

/-- The body of `g_main_loop_run` as the program sees it: each bus message is
dispatched to the callback, and the loop returns once an invocation has called
`g_main_loop_quit`.  The flag is `true` when the loop returned and `false` when
the messages ran out first, in which case the loop waits forever. -/
def g_main_loop_run : List GstMessage → CustomData → List Call × Bool
  | [], _ => ([], false)
  | msg :: rest, data =>
      let r := cb_message msg data
      if Call.g_main_loop_quit ∈ r.2 then (r.2, true)
      else
        let r2 := g_main_loop_run rest r.1
        (r.2 ++ r2.1, r2.2)

/-- The URI both tutorials play. -/
def mediaUri : String :=
  "https://gstreamer.freedesktop.org/data/media/sintel_trailer-480p.webm"

/-- The `main` of `basic-tutorial-12.c`, for a given result `ret` of the Playing
request and a given sequence of bus messages: the calls it makes and its exit
status (`none` when it never returns). -/
def mainA (ret : GstStateChangeReturn) (msgs : List GstMessage) : List Call × Option Int :=
  let pre : List Call :=
    [.gst_init,
     .gst_parse_launch ("playbin uri=" ++ mediaUri),
     .gst_element_get_bus,
     .gst_element_set_state .PLAYING]
  if ret = .FAILURE then
    (pre ++ [.g_printerr "Unable to set the pipeline to the playing state.\n",
             .gst_object_unref_pipeline],
     some (-1))
  else
    let data : CustomData := { is_live := decide (ret = .NO_PREROLL) }
    let setup : List Call :=
      [.g_main_loop_new,
       .gst_bus_add_signal_watch,
       .g_signal_connect "message",
       .g_main_loop_run]
    let run := g_main_loop_run msgs data
    if run.2 then
      (pre ++ setup ++ run.1 ++
         [.g_main_loop_unref,
          .gst_object_unref_bus,
          .gst_element_set_state .NULL,
          .gst_object_unref_pipeline],
       some 0)
    else
      (pre ++ setup ++ run.1, none)

/-! ## Controller B: `basic-tutorial-3.c` -/

/-- The name of a message source (`GST_OBJECT_NAME`); the pipeline was created as
`test-pipeline`. -/
def GST_OBJECT_NAME : GstObject → String
  | .pipeline => "test-pipeline"
  | .child name => name

/-- The switch in the body of the polling loop, for one value returned by
`gst_bus_timed_pop_filtered` (`none` is a `NULL` return): the calls made, and the
value of `terminate` after the iteration given its value before. -/
def poll_step (msg : Option GstMessage) (terminate : Bool) : List Call × Bool :=
  match msg with
  | none => ([], terminate)
  | some (.ERROR src message debug_info) =>
      ([.g_printerr ("Error received from element " ++ GST_OBJECT_NAME src ++ ": "
                      ++ message ++ "\n"),
        .g_printerr ("Debugging information: " ++ debug_info.getD "none" ++ "\n"),
        .gst_message_unref],
       true)
  | some .EOS =>
      ([.g_print "End-Of-Stream reached.\n",
        .gst_message_unref],
       true)
  | some (.STATE_CHANGED src old_state new_state _) =>
      if src = .pipeline then
        ([.g_print ("Pipeline state changed from " ++ gst_element_state_get_name old_state
                     ++ " to " ++ gst_element_state_get_name new_state ++ ":\n"),
          .gst_message_unref],
         terminate)
      else ([.gst_message_unref], terminate)
  | some _ =>
      ([.g_printerr "Unexpected message received.\n",
        .gst_message_unref],
       terminate)

/-- The `do ... while (!terminate)` loop over the values the bus returns, one per
iteration.  The flag of the result is `true` when the loop was left and `false`
when the bus had nothing more to return, in which case the last
`gst_bus_timed_pop_filtered` never comes back. -/
def poll_loop : List (Option GstMessage) → Bool → List Call × Bool
  | [], _ => ([.gst_bus_timed_pop_filtered], false)
  | msg :: rest, terminate =>
      let r := poll_step msg terminate
      if r.2 then (.gst_bus_timed_pop_filtered :: r.1, true)
      else
        let r2 := poll_loop rest r.2
        (.gst_bus_timed_pop_filtered :: r.1 ++ r2.1, r2.2)

/-- What the framework answers to Controller B before the polling loop: whether
each constructor returned an object, whether each `gst_element_link_many`
succeeded, and the result of the Playing request. -/
structure Outcomes where
  source : Bool
  a_convert : Bool
  a_resample : Bool
  a_sink : Bool
  v_convert : Bool
  v_sink : Bool
  pipeline : Bool
  link_audio : Bool
  link_video : Bool
  ret : GstStateChangeReturn
  deriving DecidableEq, Repr

/-- The `main` of `basic-tutorial-3.c`, for given framework answers and a given
sequence of values returned by the bus: the calls it makes and its exit status
(`none` when it never returns). -/
def mainB (o : Outcomes) (msgs : List (Option GstMessage)) : List Call × Option Int :=
  let create : List Call :=
    [.gst_init,
     .gst_element_factory_make "uridecodebin" "source",
     .gst_element_factory_make "audioconvert" "a_convert",
     .gst_element_factory_make "audioresample" "a_resample",
     .gst_element_factory_make "autoaudiosink" "a_sink",
     .gst_element_factory_make "videoconvert" "v_convert",
     .gst_element_factory_make "autovideosink" "v_sink",
     .gst_pipeline_new "test-pipeline"]
  if !o.pipeline || !o.source || !o.a_convert || !o.a_resample || !o.a_sink
      || !o.v_convert || !o.v_sink then
    (create ++ [.g_printerr "Not all elements could be created.\n"], some (-1))
  else
    let add : List Call :=
      [.gst_bin_add_many ["source", "a_convert", "a_resample", "a_sink", "v_convert", "v_sink"]]
    let linkA : List Call := [.gst_element_link_many ["a_convert", "a_resample", "a_sink"]]
    let linkV : List Call := [.gst_element_link_many ["v_convert", "v_sink"]]
    let failed : List Call :=
      [.g_printerr "Elements could not be linked.\n", .gst_object_unref_pipeline]
    if !o.link_audio then
      (create ++ add ++ linkA ++ failed, some (-1))
    else if !o.link_video then
      (create ++ add ++ linkA ++ linkV ++ failed, some (-1))
    else
      let start : List Call :=
        [.g_object_set_uri mediaUri,
         .g_signal_connect "pad-added",
         .gst_element_set_state .PLAYING]
      let pre := create ++ add ++ linkA ++ linkV ++ start
      if o.ret = .FAILURE then
        (pre ++ [.g_printerr "Unable to set the pipeline to the playing state.\n",
                 .gst_object_unref_pipeline],
         some (-1))
      else
        let run := poll_loop msgs false
        if run.2 then
          (pre ++ [.gst_element_get_bus] ++ run.1 ++
             [.gst_object_unref_bus,
              .gst_element_set_state .NULL,
              .gst_object_unref_pipeline],
           some 0)
        else
          (pre ++ [.gst_element_get_bus] ++ run.1, none)

/-- The result of `gst_pad_link` (`GstPadLinkReturn`). -/
inductive GstPadLinkReturn where
  | OK
  | WRONG_HIERARCHY
  | WAS_LINKED
  | WRONG_DIRECTION
  | NOFORMAT
  | NOSCHED
  | REFUSED
  deriving DecidableEq, Repr

/-- A pad announced by the source: its name and the name of the first structure
of its current caps, the content-type string. -/
structure GstPad where
  name : String
  type : String
  deriving DecidableEq, Repr

/-- Whether the `sink` pad of each converter has a peer.  A pad gets its peer
from a `gst_pad_link` that returns `OK` and from nothing else the program does. -/
structure LinkState where
  a_linked : Bool
  v_linked : Bool
  deriving DecidableEq, Repr

/-- The GLib test whether `str` begins with `pfx`, which GLib computes as
`strncmp (str, pfx, strlen (pfx)) == 0`: the first `strlen (pfx)` characters of
`str` are exactly those of `pfx`. -/
def g_str_has_prefix (str pfx : String) : Bool :=
  str.data.take pfx.data.length == pfx.data

/-- The callback `pad_added_handler`, for a pad announced by the element named
`src`, given what `gst_pad_link` would return for it (`link`) and the link state
before: the link state after, and the calls made. -/
def pad_added_handler (src : String) (new_pad : GstPad) (link : GstPadLinkReturn)
    (st : LinkState) : LinkState × List Call :=
  let head : List Call :=
    [.gst_element_get_static_pad .a_convert "a_sink",
     .gst_element_get_static_pad .v_convert "v_sink",
     .g_print ("Received new pad \x27" ++ new_pad.name ++ "\x27 from \x27" ++ src ++ "\x27:\n"),
     .gst_pad_get_current_caps]
  if g_str_has_prefix new_pad.type "audio/x-raw" then
    let get : List Call := [.gst_element_get_static_pad .a_convert "sink", .gst_pad_is_linked .a_convert]
    if st.a_linked then
      (st, head ++ get ++ [.g_print "Audio pad already linked. Ignoring.\n",
                           .gst_object_unref_pad .a_convert, .gst_caps_unref])
    else if link = .OK then
      ({ st with a_linked := true },
       head ++ get ++ [.gst_pad_link .a_convert,
                       .g_print "Audio pad linked successfully.\n",
                       .gst_object_unref_pad .a_convert, .gst_caps_unref])
    else
      (st, head ++ get ++ [.gst_pad_link .a_convert,
                           .g_print "Audio pad link failed.\n",
                           .gst_object_unref_pad .a_convert, .gst_caps_unref])
  else if g_str_has_prefix new_pad.type "video/x-raw" then
    let get : List Call := [.gst_element_get_static_pad .v_convert "sink", .gst_pad_is_linked .v_convert]
    if st.v_linked then
      (st, head ++ get ++ [.g_print "Video pad already linked. Ignoring.\n",
                           .gst_object_unref_pad .v_convert, .gst_caps_unref])
    else if link = .OK then
      ({ st with v_linked := true },
       head ++ get ++ [.gst_pad_link .v_convert,
                       .g_print "Video pad linked successfully.\n",
                       .gst_object_unref_pad .v_convert, .gst_caps_unref])
    else
      (st, head ++ get ++ [.gst_pad_link .v_convert,
                           .g_print "Video pad link failed.\n",
                           .gst_object_unref_pad .v_convert, .gst_caps_unref])
  else
    (st, head ++ [.g_print ("Unknown pad type \x27" ++ new_pad.type ++ "\x27. Ignoring.\n"),
                  .gst_caps_unref])

/-- The handler over a whole session: one invocation per discovery event, each
event being a pad together with what `gst_pad_link` would return for it. -/
def pad_added_seq : List (GstPad × GstPadLinkReturn) → LinkState → LinkState × List Call
  | [], st => (st, [])
  | ev :: rest, st =>
      let r := pad_added_handler "source" ev.1 ev.2 st
      let r2 := pad_added_seq rest r.1
      (r2.1, r.2 ++ r2.2)

/-! ## Observations on call sequences -/

/-- The states requested by a sequence of calls, in order. -/
def stateRequests (calls : List Call) : List GstState :=
  calls.filterMap fun c =>
    match c with
    | .gst_element_set_state s => some s
    | _ => none

/-- Whether a call is `g_main_loop_quit`. -/
def isQuit : Call → Bool
  | .g_main_loop_quit => true
  | _ => false

/-- The number of loop-termination signals in a sequence of calls. -/
def quitCount (calls : List Call) : Nat :=
  calls.countP isQuit

/-- Whether a call writes a line to the console. -/
def isLog : Call → Bool
  | .g_print _ => true
  | .g_printerr _ => true
  | _ => false

/-- The pads the program tries to link, in order, by target chain. -/
def linkAttempts (calls : List Call) : List Chain :=
  calls.filterMap fun c =>
    match c with
    | .gst_pad_link target => some target
    | _ => none

/-- Whether a message is an Error or an End-Of-Stream. -/
def isTerminal : GstMessage → Bool
  | .ERROR _ _ _ => true
  | .EOS => true
  | _ => false

/-- Whether `cb_message` has a case for the type of a message. -/
def handledByA : GstMessage → Bool
  | .ERROR _ _ _ => true
  | .EOS => true
  | .BUFFERING _ => true
  | .CLOCK_LOST => true
  | _ => false

/-- Whether a value returned by the bus poll is an Error or End-Of-Stream
message. -/
def isTerminalPop : Option GstMessage → Bool
  | some msg => isTerminal msg
  | none => false

/-- Whether a call is the blocking bus poll. -/
def isPop : Call → Bool
  | .gst_bus_timed_pop_filtered => true
  | _ => false

/-- The number of bus polls in a sequence of calls. -/
def popCount (calls : List Call) : Nat :=
  calls.countP isPop

/-- Whether the handler sends a pad to the audio chain. -/
def isAudio (pad : GstPad) : Bool :=
  g_str_has_prefix pad.type "audio/x-raw"

/-- Whether the handler sends a pad to the video chain. -/
def isVideo (pad : GstPad) : Bool :=
  !isAudio pad && g_str_has_prefix pad.type "video/x-raw"

/-- Whether the handler sends a pad to chain `c`. -/
def ofType (c : Chain) (pad : GstPad) : Bool :=
  match c with
  | .a_convert => isAudio pad
  | .v_convert => isVideo pad

/-- Whether the link of a discovery event, if attempted, is rejected. -/
def rejected (ev : GstPad × GstPadLinkReturn) : Bool :=
  decide (ev.2 ≠ .OK)

/-- Whether every constructor returned an object and both fixed sub-chains were
linked, so that `main` reaches the Playing request. -/
def built (o : Outcomes) : Bool :=
  o.pipeline && o.source && o.a_convert && o.a_resample && o.a_sink && o.v_convert
    && o.v_sink && o.link_audio && o.link_video

/-- Whether the `sink` pad of the converter of chain `c` is linked. -/
def linked (st : LinkState) : Chain → Bool
  | .a_convert => st.a_linked
  | .v_convert => st.v_linked

/-! ## Controller A: the callback -/

theorem cb_message_fst (msg : GstMessage) (data : CustomData) :
    (cb_message msg data).1 = data := by
  cases msg <;> simp [cb_message]
  split <;> rfl

theorem stateRequests_append (xs ys : List Call) :
    stateRequests (xs ++ ys) = stateRequests xs ++ stateRequests ys := by
  simp [stateRequests, List.filterMap_append]

theorem quitCount_append (xs ys : List Call) :
    quitCount (xs ++ ys) = quitCount xs + quitCount ys := by
  simp [quitCount, List.countP_append]

theorem cb_message_terminal (msg : GstMessage) (data : CustomData)
    (h : isTerminal msg = true) :
    stateRequests (cb_message msg data).2 = [.READY] ∧ quitCount (cb_message msg data).2 = 1 := by
  cases msg <;> simp [isTerminal] at h <;>
    simp [cb_message, stateRequests, quitCount, isQuit]

theorem cb_message_not_terminal (msg : GstMessage) (data : CustomData)
    (h : isTerminal msg = false) :
    GstState.READY ∉ stateRequests (cb_message msg data).2 ∧
      quitCount (cb_message msg data).2 = 0 := by
  cases msg with
  | BUFFERING p =>
      by_cases hl : data.is_live = true <;> by_cases hp : p < 100 <;>
        simp [cb_message, stateRequests, quitCount, isQuit, hl, hp]
  | ERROR _ _ _ => simp [isTerminal] at h
  | EOS => simp [isTerminal] at h
  | _ => simp [cb_message, stateRequests, quitCount, isQuit]

/-- C2: for a live session, `cb_message` on a Buffering message of any percentage
makes no call at all: no state request (Paused, Playing or other) and no
loop-termination signal. -/
theorem cb_message_buffering_live (data : CustomData) (p : Int)
    (hlive : data.is_live = true) :
    (cb_message (.BUFFERING p) data).2 = [] ∧
      stateRequests (cb_message (.BUFFERING p) data).2 = [] ∧
      quitCount (cb_message (.BUFFERING p) data).2 = 0 := by
  simp [cb_message, hlive, stateRequests, quitCount]

theorem cb_message_buffering_live_witness :
    (cb_message (.BUFFERING 40) ⟨true⟩).2 = [] ∧
      stateRequests (cb_message (.BUFFERING 40) ⟨true⟩).2 = [] ∧
      quitCount (cb_message (.BUFFERING 40) ⟨true⟩).2 = 0 :=
  cb_message_buffering_live ⟨true⟩ 40 rfl

/-- C3: for a session that is not live, `cb_message` on a Buffering message with
percentage `p` makes exactly one state request, Paused when `p < 100` and Playing
otherwise, and no loop-termination signal; 99 gives Paused and 100 gives
Playing. -/
theorem cb_message_buffering_not_live (data : CustomData) (p : Int)
    (hlive : data.is_live = false) :
    stateRequests (cb_message (.BUFFERING p) data).2
        = [if p < 100 then GstState.PAUSED else GstState.PLAYING] ∧
      quitCount (cb_message (.BUFFERING p) data).2 = 0 ∧
      stateRequests (cb_message (.BUFFERING 99) data).2 = [.PAUSED] ∧
      stateRequests (cb_message (.BUFFERING 100) data).2 = [.PLAYING] := by
  refine ⟨?_, ?_, ?_, ?_⟩
  · by_cases hp : p < 100 <;> simp [cb_message, hlive, stateRequests, hp]
  · by_cases hp : p < 100 <;> simp [cb_message, hlive, quitCount, isQuit, hp]
  · simp [cb_message, hlive, stateRequests]
  · simp [cb_message, hlive, stateRequests]

theorem cb_message_buffering_not_live_witness :
    stateRequests (cb_message (.BUFFERING 100) ⟨false⟩).2
        = [if (100 : Int) < 100 then GstState.PAUSED else GstState.PLAYING] ∧
      quitCount (cb_message (.BUFFERING 100) ⟨false⟩).2 = 0 ∧
      stateRequests (cb_message (.BUFFERING 99) ⟨false⟩).2 = [.PAUSED] ∧
      stateRequests (cb_message (.BUFFERING 100) ⟨false⟩).2 = [.PLAYING] :=
  cb_message_buffering_not_live ⟨false⟩ 100 rfl

/-- C10: for every session, `cb_message` on a ClockLost message makes exactly the
two calls that request Paused and then Playing, with no loop-termination signal;
on a message of any type other than Error, End-Of-Stream, Buffering and ClockLost
it makes no call; and whatever the message, the session it leaves is the session
it was given, so `is_live` is unchanged. -/
theorem cb_message_clock_lost_and_default (data : CustomData) (msg : GstMessage)
    (hother : handledByA msg = false) :
    (cb_message .CLOCK_LOST data).2
        = [.gst_element_set_state .PAUSED, .gst_element_set_state .PLAYING] ∧
      stateRequests (cb_message .CLOCK_LOST data).2 = [.PAUSED, .PLAYING] ∧
      quitCount (cb_message .CLOCK_LOST data).2 = 0 ∧
      (cb_message msg data).2 = [] ∧
      (∀ m : GstMessage, (cb_message m data).1.is_live = data.is_live) := by
  refine ⟨rfl, rfl, rfl, ?_, fun m => by rw [cb_message_fst]⟩
  cases msg <;> simp [handledByA] at hother <;> simp [cb_message]

theorem cb_message_clock_lost_and_default_witness :
    (cb_message .CLOCK_LOST ⟨true⟩).2
        = [.gst_element_set_state .PAUSED, .gst_element_set_state .PLAYING] ∧
      stateRequests (cb_message .CLOCK_LOST ⟨true⟩).2 = [.PAUSED, .PLAYING] ∧
      quitCount (cb_message .CLOCK_LOST ⟨true⟩).2 = 0 ∧
      (cb_message (.STATE_CHANGED .pipeline .READY .PAUSED .PLAYING) ⟨true⟩).2 = [] ∧
      (∀ m : GstMessage, (cb_message m ⟨true⟩).1.is_live = (⟨true⟩ : CustomData).is_live) :=
  cb_message_clock_lost_and_default ⟨true⟩ (.STATE_CHANGED .pipeline .READY .PAUSED .PLAYING) rfl

theorem cb_message_seq_counts (msgs : List GstMessage) (data : CustomData) :
    (stateRequests (cb_message_seq msgs data).2).count .READY = msgs.countP isTerminal ∧
      quitCount (cb_message_seq msgs data).2 = msgs.countP isTerminal := by
  induction msgs generalizing data with
  | nil => simp [cb_message_seq, stateRequests, quitCount]
  | cons msg rest ih =>
      have ih2 := ih (cb_message msg data).1
      simp only [cb_message_seq, stateRequests_append, quitCount_append, List.count_append,
        List.countP_cons]
      rw [ih2.1, ih2.2]
      cases ht : isTerminal msg
      · have h := cb_message_not_terminal msg data ht
        rw [h.2, List.count_eq_zero.mpr h.1]
        simp
      · have h := cb_message_terminal msg data ht
        rw [h.1, h.2]
        simp [Nat.add_comm]

theorem quit_mem_cb_message (msg : GstMessage) (data : CustomData) :
    Call.g_main_loop_quit ∈ (cb_message msg data).2 ↔ isTerminal msg = true := by
  cases msg with
  | BUFFERING p =>
      by_cases hl : data.is_live = true <;> by_cases hp : p < 100 <;>
        simp [cb_message, isTerminal, hl, hp]
  | _ => simp [cb_message, isTerminal]

theorem g_main_loop_run_spec (msgs : List GstMessage) (data : CustomData) :
    (g_main_loop_run msgs data).2 = msgs.any isTerminal ∧
      (stateRequests (g_main_loop_run msgs data).1).count .READY
        = (if msgs.any isTerminal then 1 else 0) ∧
      quitCount (g_main_loop_run msgs data).1 = (if msgs.any isTerminal then 1 else 0) ∧
      GstState.NULL ∉ stateRequests (g_main_loop_run msgs data).1 := by
  induction msgs generalizing data with
  | nil => simp [g_main_loop_run, stateRequests, quitCount]
  | cons msg rest ih =>
      have ih2 := ih (cb_message msg data).1
      cases ht : isTerminal msg
      · have hq : Call.g_main_loop_quit ∉ (cb_message msg data).2 := by
          rw [quit_mem_cb_message, ht]; simp
        have h := cb_message_not_terminal msg data ht
        have hn : GstState.NULL ∉ stateRequests (cb_message msg data).2 := by
          cases msg with
          | BUFFERING p =>
              by_cases hl : data.is_live = true <;> by_cases hp : p < 100 <;>
                simp [cb_message, stateRequests, hl, hp]
          | ERROR _ _ _ => simp [isTerminal] at ht
          | EOS => simp [isTerminal] at ht
          | _ => simp [cb_message, stateRequests]
        simp only [g_main_loop_run, hq, if_false, List.any_cons, ht, Bool.false_or,
          stateRequests_append, quitCount_append, List.count_append, List.mem_append, not_or]
        rw [ih2.1, ih2.2.1, ih2.2.2.1, h.2, List.count_eq_zero.mpr h.1]
        exact ⟨rfl, by simp, by simp, hn, ih2.2.2.2⟩
      · have hq : Call.g_main_loop_quit ∈ (cb_message msg data).2 := by
          rw [quit_mem_cb_message, ht]
        have h := cb_message_terminal msg data ht
        simp only [g_main_loop_run, hq, if_true, List.any_cons, ht, Bool.true_or]
        rw [h.1, h.2]
        simp

/-- C1, as the code has it: every Error or End-Of-Stream message given to
`cb_message` results in exactly one Ready request and exactly one
loop-termination signal, whatever was delivered before, so over a sequence of
messages fed to the callback both numbers equal the number of Error and
End-Of-Stream messages in it; inside `g_main_loop_run`, which dispatches nothing
after the first signal, each number is at most one. -/
theorem cb_message_terminates_every_time (msgs : List GstMessage) (data : CustomData) :
    (∀ msg : GstMessage, isTerminal msg = true →
        stateRequests (cb_message msg data).2 = [.READY] ∧
          quitCount (cb_message msg data).2 = 1) ∧
      (stateRequests (cb_message_seq msgs data).2).count .READY = msgs.countP isTerminal ∧
      quitCount (cb_message_seq msgs data).2 = msgs.countP isTerminal ∧
      (stateRequests (g_main_loop_run msgs data).1).count .READY ≤ 1 ∧
      quitCount (g_main_loop_run msgs data).1 ≤ 1 := by
  have hs := cb_message_seq_counts msgs data
  have hr := g_main_loop_run_spec msgs data
  refine ⟨fun msg h => cb_message_terminal msg data h, hs.1, hs.2, ?_, ?_⟩
  · rw [hr.2.1]; split <;> simp
  · rw [hr.2.2.1]; split <;> simp

theorem cb_message_terminates_every_time_witness :
    stateRequests (cb_message .EOS ⟨false⟩).2 = [.READY] ∧
      quitCount (cb_message .EOS ⟨false⟩).2 = 1 :=
  (cb_message_terminates_every_time [] ⟨false⟩).1 .EOS rfl

/-- C1, as stated, fails: a second Error fed to the callback after a first one
has already signalled termination issues a second Ready request and a second
loop-termination signal. -/
theorem cb_message_second_error_retriggers :
    (cb_message (.ERROR .pipeline "lost" none)
        (cb_message (.ERROR .pipeline "lost" none) ⟨false⟩).1).2
      = [.g_print "Error: lost\n", .gst_element_set_state .READY, .g_main_loop_quit] ∧
    (stateRequests (cb_message_seq
        [.ERROR .pipeline "lost" none, .ERROR .pipeline "lost" none] ⟨false⟩).2).count .READY
      = 2 ∧
    quitCount (cb_message_seq
        [.ERROR .pipeline "lost" none, .ERROR .pipeline "lost" none] ⟨false⟩).2 = 2 := by
  refine ⟨?_, ?_, ?_⟩
  · simp [cb_message]
  · simp [cb_message_seq, cb_message, stateRequests]
  · simp [cb_message_seq, cb_message, quitCount, isQuit]

/-! ## Controller B: the polling loop -/

theorem poll_step_flag (msg : Option GstMessage) :
    (poll_step msg false).2 = isTerminalPop msg := by
  rcases msg with _ | msg
  · rfl
  · cases msg <;> simp [poll_step, isTerminalPop, isTerminal]
    split <;> rfl

theorem poll_step_quiet (msg : Option GstMessage) (b : Bool) :
    popCount (poll_step msg b).1 = 0 ∧ stateRequests (poll_step msg b).1 = [] := by
  rcases msg with _ | msg
  · simp [poll_step, popCount, stateRequests]
  · cases msg <;> simp [poll_step, popCount, stateRequests, isPop]
    split <;> simp [isPop]

theorem popCount_append (xs ys : List Call) :
    popCount (xs ++ ys) = popCount xs + popCount ys := by
  simp [popCount, List.countP_append]

theorem popCount_cons_pop (xs : List Call) :
    popCount (.gst_bus_timed_pop_filtered :: xs) = popCount xs + 1 := by
  simp [popCount, isPop]

theorem poll_loop_cons_terminal (msg : Option GstMessage) (rest : List (Option GstMessage))
    (h : isTerminalPop msg = true) :
    poll_loop (msg :: rest) false
      = (.gst_bus_timed_pop_filtered :: (poll_step msg false).1, true) := by
  simp [poll_loop, poll_step_flag, h]

theorem poll_loop_cons_other (msg : Option GstMessage) (rest : List (Option GstMessage))
    (h : isTerminalPop msg = false) :
    poll_loop (msg :: rest) false
      = (.gst_bus_timed_pop_filtered :: (poll_step msg false).1 ++ (poll_loop rest false).1,
         (poll_loop rest false).2) := by
  have hf : (poll_step msg false).2 = false := by rw [poll_step_flag, h]
  simp [poll_loop, hf]

theorem poll_loop_spec (msgs : List (Option GstMessage)) :
    (poll_loop msgs false).2 = msgs.any isTerminalPop ∧
      popCount (poll_loop msgs false).1
        = (msgs.takeWhile fun m => !isTerminalPop m).length + 1 ∧
      stateRequests (poll_loop msgs false).1 = [] := by
  induction msgs with
  | nil => simp [poll_loop, popCount, isPop, stateRequests]
  | cons msg rest ih =>
      cases ht : isTerminalPop msg
      · rw [poll_loop_cons_other msg rest ht]
        have hq := poll_step_quiet msg false
        refine ⟨by simp [ht, ih.1], ?_, ?_⟩
        · simp only [List.cons_append, popCount_cons_pop, popCount_append, hq.1, ih.2.1,
            List.takeWhile_cons, ht, Bool.not_false, if_true, List.length_cons]
          omega
        · show stateRequests ((Call.gst_bus_timed_pop_filtered :: (poll_step msg false).1)
              ++ (poll_loop rest false).1) = []
          rw [stateRequests_append, ih.2.2]
          simpa [stateRequests] using hq.2
      · rw [poll_loop_cons_terminal msg rest ht]
        have hq := poll_step_quiet msg false
        refine ⟨by simp [ht], ?_, ?_⟩
        · simp [popCount_cons_pop, hq.1, List.takeWhile_cons, ht]
        · simpa [stateRequests] using hq.2

theorem poll_loop_cut (pre post : List (Option GstMessage)) (t : Option GstMessage)
    (hpre : ∀ m ∈ pre, isTerminalPop m = false) (ht : isTerminalPop t = true) :
    poll_loop (pre ++ t :: post) false = poll_loop (pre ++ [t]) false ∧
      (List.takeWhile (fun m => !isTerminalPop m) (pre ++ t :: post)) = pre := by
  induction pre with
  | nil =>
      simp [poll_loop_cons_terminal _ _ ht, ht]
  | cons m rest ih =>
      have hm : isTerminalPop m = false := hpre m (List.mem_cons_self _ _)
      have ih2 := ih (fun x hx => hpre x (List.mem_cons_of_mem _ hx))
      simp only [List.cons_append, poll_loop_cons_other _ _ hm, ih2.1, List.takeWhile_cons, hm,
        Bool.not_false, if_true, ih2.2, and_self]

theorem poll_loop_waiting (pre : List (Option GstMessage))
    (hpre : ∀ m ∈ pre, isTerminalPop m = false) :
    poll_loop pre false
      = (pre.flatMap (fun m => Call.gst_bus_timed_pop_filtered :: (poll_step m false).1)
          ++ [.gst_bus_timed_pop_filtered], false) := by
  induction pre with
  | nil => simp [poll_loop]
  | cons m rest ih =>
      have hm : isTerminalPop m = false := hpre m (List.mem_cons_self _ _)
      have ih2 := ih (fun x hx => hpre x (List.mem_cons_of_mem _ hx))
      rw [poll_loop_cons_other _ _ hm, ih2]
      simp [List.flatMap_cons]

theorem poll_loop_trace (pre : List (Option GstMessage)) (t : Option GstMessage)
    (hpre : ∀ m ∈ pre, isTerminalPop m = false) (ht : isTerminalPop t = true) :
    poll_loop (pre ++ [t]) false
      = ((pre ++ [t]).flatMap
          (fun m => Call.gst_bus_timed_pop_filtered :: (poll_step m false).1), true) := by
  induction pre with
  | nil => simp [poll_loop_cons_terminal _ _ ht, List.flatMap_cons]
  | cons m rest ih =>
      have hm : isTerminalPop m = false := hpre m (List.mem_cons_self _ _)
      have ih2 := ih (fun x hx => hpre x (List.mem_cons_of_mem _ hx))
      rw [List.cons_append, poll_loop_cons_other _ _ hm, ih2]
      simp [List.flatMap_cons]

/-- C8: in the polling loop of Controller B the termination flag becomes set
exactly on an Error or End-Of-Stream message and a StateChanged message leaves it
as it was; so when the bus returns `pre`, then a first Error or End-Of-Stream `t`,
then `post`, the loop polls `pre.length + 1` times, is left, and does what it
would do had the bus returned nothing after `t`; its calls are, for each message
of `pre` and then for `t`, one poll followed by the calls of the switch for that
message, and as long as only `pre` has been returned the loop is not left and
polls again.  For a StateChanged message the calls of the switch are the log line
and the release of the message when its source is the pipeline, and the release
alone otherwise, so a StateChanged message produces a log line exactly when its
source is the pipeline. -/
theorem poll_loop_stops_at_first_terminal (pre post : List (Option GstMessage))
    (t : Option GstMessage)
    (hpre : ∀ m ∈ pre, isTerminalPop m = false) (ht : isTerminalPop t = true) :
    (∀ msg : Option GstMessage, (poll_step msg false).2 = true ↔ isTerminalPop msg = true) ∧
      (∀ (src : GstObject) (o n p : GstState) (b : Bool),
        (poll_step (some (.STATE_CHANGED src o n p)) b).2 = b) ∧
      (poll_loop (pre ++ t :: post) false).2 = true ∧
      popCount (poll_loop (pre ++ t :: post) false).1 = pre.length + 1 ∧
      poll_loop (pre ++ t :: post) false = poll_loop (pre ++ [t]) false ∧
      (∀ (src : GstObject) (o n p : GstState) (b : Bool),
        (poll_step (some (.STATE_CHANGED src o n p)) b).1.any isLog = true
          ↔ src = .pipeline) ∧
      (poll_loop (pre ++ t :: post) false).1
        = (pre ++ [t]).flatMap
            (fun m => Call.gst_bus_timed_pop_filtered :: (poll_step m false).1) ∧
      poll_loop pre false
        = (pre.flatMap (fun m => Call.gst_bus_timed_pop_filtered :: (poll_step m false).1)
            ++ [.gst_bus_timed_pop_filtered], false) ∧
      (∀ (src : GstObject) (o n p : GstState) (b : Bool),
        (poll_step (some (.STATE_CHANGED src o n p)) b).1
          = if src = .pipeline then
              [.g_print ("Pipeline state changed from " ++ gst_element_state_get_name o
                  ++ " to " ++ gst_element_state_get_name n ++ ":\n"),
               .gst_message_unref]
            else [.gst_message_unref]) := by
  have hs := poll_loop_spec (pre ++ t :: post)
  have hp := poll_loop_cut pre post t hpre ht
  have htr := poll_loop_trace pre t hpre ht
  refine ⟨fun msg => by rw [poll_step_flag], ?_, ?_, ?_, hp.1, ?_, ?_,
    poll_loop_waiting pre hpre, ?_⟩
  · intro src o n p b
    by_cases h : src = .pipeline <;> simp [poll_step, h]
  · rw [hs.1]; simp [ht]
  · rw [hs.2.1, hp.2]
  · intro src o n p b
    by_cases h : src = .pipeline <;> simp [poll_step, h, isLog]
  · rw [hp.1, htr]
  · intro src o n p b
    by_cases h : src = .pipeline <;> simp [poll_step, h]

theorem poll_loop_stops_at_first_terminal_witness :
    (poll_loop ([some (.STATE_CHANGED .pipeline .NULL .READY .VOID_PENDING),
          some (.STATE_CHANGED (.child "source") .NULL .READY .VOID_PENDING), none]
        ++ some .EOS :: [some .EOS]) false).2 = true ∧
      (poll_loop ([some (.STATE_CHANGED .pipeline .NULL .READY .VOID_PENDING),
          some (.STATE_CHANGED (.child "source") .NULL .READY .VOID_PENDING), none]
        ++ some .EOS :: [some .EOS]) false).1
        = [.gst_bus_timed_pop_filtered,
           .g_print "Pipeline state changed from NULL to READY:\n",
           .gst_message_unref,
           .gst_bus_timed_pop_filtered,
           .gst_message_unref,
           .gst_bus_timed_pop_filtered,
           .gst_bus_timed_pop_filtered,
           .g_print "End-Of-Stream reached.\n",
           .gst_message_unref] :=
  have h := poll_loop_stops_at_first_terminal
    [some (.STATE_CHANGED .pipeline .NULL .READY .VOID_PENDING),
      some (.STATE_CHANGED (.child "source") .NULL .READY .VOID_PENDING), none]
    [some .EOS] (some .EOS)
    (by simp [isTerminalPop, isTerminal]) rfl
  ⟨h.2.2.1, h.2.2.2.2.2.2.1.trans (by decide)⟩

/-! ## Both controllers: `main` -/

theorem mainA_failure (msgs : List GstMessage) :
    mainA .FAILURE msgs
      = ([.gst_init,
          .gst_parse_launch ("playbin uri=" ++ mediaUri),
          .gst_element_get_bus,
          .gst_element_set_state .PLAYING,
          .g_printerr "Unable to set the pipeline to the playing state.\n",
          .gst_object_unref_pipeline],
         some (-1)) := by
  simp [mainA]

theorem mainA_run (ret : GstStateChangeReturn) (msgs : List GstMessage) (h : ret ≠ .FAILURE) :
    ∃ pre : List Call, stateRequests pre = [.PLAYING] ∧ Call.g_main_loop_run ∈ pre ∧
      Call.g_signal_connect "message" ∈ pre ∧
      mainA ret msgs
        = (if msgs.any isTerminal then
            (pre ++ (g_main_loop_run msgs ⟨decide (ret = .NO_PREROLL)⟩).1 ++
              [.g_main_loop_unref, .gst_object_unref_bus] ++
              [.gst_element_set_state .NULL, .gst_object_unref_pipeline], some 0)
          else (pre ++ (g_main_loop_run msgs ⟨decide (ret = .NO_PREROLL)⟩).1, none)) := by
  refine ⟨[.gst_init, .gst_parse_launch ("playbin uri=" ++ mediaUri), .gst_element_get_bus,
    .gst_element_set_state .PLAYING, .g_main_loop_new, .gst_bus_add_signal_watch,
    .g_signal_connect "message", .g_main_loop_run], by simp [stateRequests], by simp, by simp, ?_⟩
  have hs := (g_main_loop_run_spec msgs ⟨decide (ret = .NO_PREROLL)⟩).1
  simp only [mainA, if_neg h, hs]
  cases msgs.any isTerminal <;> simp

theorem mainB_failure (o : Outcomes) (msgs : List (Option GstMessage)) (hb : built o = true)
    (hr : o.ret = .FAILURE) :
    (mainB o msgs).2 = some (-1) ∧ stateRequests (mainB o msgs).1 = [.PLAYING] ∧
      (mainB o msgs).1.countP isLog = 1 ∧ popCount (mainB o msgs).1 = 0 ∧
      Call.g_printerr "Unable to set the pipeline to the playing state.\n" ∈ (mainB o msgs).1 := by
  rcases o with ⟨s, ac, ar, as, vc, vs, pl, la, lv, r⟩
  simp only [built, Bool.and_eq_true] at hb
  obtain ⟨⟨⟨⟨⟨⟨⟨⟨h1, h2⟩, h3⟩, h4⟩, h5⟩, h6⟩, h7⟩, h8⟩, h9⟩ := hb
  simp only at hr
  subst h1 h2 h3 h4 h5 h6 h7 h8 h9 hr
  simp [mainB, stateRequests, popCount, isPop, isLog]

theorem mainB_run (o : Outcomes) (msgs : List (Option GstMessage)) (hb : built o = true)
    (hr : o.ret ≠ .FAILURE) :
    ∃ pre : List Call, stateRequests pre = [.PLAYING] ∧ popCount pre = 0 ∧
      mainB o msgs
        = (if msgs.any isTerminalPop then
            (pre ++ (poll_loop msgs false).1 ++ [.gst_object_unref_bus] ++
              [.gst_element_set_state .NULL, .gst_object_unref_pipeline], some 0)
          else (pre ++ (poll_loop msgs false).1, none)) := by
  rcases o with ⟨s, ac, ar, as, vc, vs, pl, la, lv, r⟩
  simp only [built, Bool.and_eq_true] at hb
  obtain ⟨⟨⟨⟨⟨⟨⟨⟨h1, h2⟩, h3⟩, h4⟩, h5⟩, h6⟩, h7⟩, h8⟩, h9⟩ := hb
  simp only at hr
  subst h1 h2 h3 h4 h5 h6 h7 h8 h9
  refine ⟨[.gst_init,
     .gst_element_factory_make "uridecodebin" "source",
     .gst_element_factory_make "audioconvert" "a_convert",
     .gst_element_factory_make "audioresample" "a_resample",
     .gst_element_factory_make "autoaudiosink" "a_sink",
     .gst_element_factory_make "videoconvert" "v_convert",
     .gst_element_factory_make "autovideosink" "v_sink",
     .gst_pipeline_new "test-pipeline",
     .gst_bin_add_many ["source", "a_convert", "a_resample", "a_sink", "v_convert", "v_sink"],
     .gst_element_link_many ["a_convert", "a_resample", "a_sink"],
     .gst_element_link_many ["v_convert", "v_sink"],
     .g_object_set_uri mediaUri,
     .g_signal_connect "pad-added",
     .gst_element_set_state .PLAYING,
     .gst_element_get_bus], by simp [stateRequests], by simp [popCount, isPop], ?_⟩
  have hs := (poll_loop_spec msgs).1
  simp only [mainB, if_neg hr, hs]
  cases msgs.any isTerminalPop <;> simp

/-- C9: in both controllers, when the Playing request returns Failure, `main`
prints exactly one line, the diagnostic, returns -1 and never enters its loop
(Controller A: no `g_main_loop_run` and no callback connected; Controller B: no
bus poll); for any other result the loop is entered, and `main` returns 0 as
soon as the loop is left, which happens exactly when the bus delivers an Error or
End-Of-Stream message.  For Controller B this is for runs that reach the Playing
request (`built`). -/
theorem playing_failure_skips_loop (ret : GstStateChangeReturn) (msgs : List GstMessage)
    (o : Outcomes) (bmsgs : List (Option GstMessage)) (hb : built o = true) :
    ((mainA .FAILURE msgs).2 = some (-1) ∧
        (mainA .FAILURE msgs).1.countP isLog = 1 ∧
        Call.g_printerr "Unable to set the pipeline to the playing state.\n"
          ∈ (mainA .FAILURE msgs).1 ∧
        Call.g_main_loop_run ∉ (mainA .FAILURE msgs).1 ∧
        (∀ signal : String, Call.g_signal_connect signal ∉ (mainA .FAILURE msgs).1)) ∧
      (ret ≠ .FAILURE →
        Call.g_main_loop_run ∈ (mainA ret msgs).1 ∧
          Call.g_signal_connect "message" ∈ (mainA ret msgs).1 ∧
          (mainA ret msgs).2 = (if msgs.any isTerminal then some 0 else none)) ∧
      (o.ret = .FAILURE →
        (mainB o bmsgs).2 = some (-1) ∧
          (mainB o bmsgs).1.countP isLog = 1 ∧
          Call.g_printerr "Unable to set the pipeline to the playing state.\n"
            ∈ (mainB o bmsgs).1 ∧
          popCount (mainB o bmsgs).1 = 0) ∧
      (o.ret ≠ .FAILURE →
        1 ≤ popCount (mainB o bmsgs).1 ∧
          (mainB o bmsgs).2 = (if bmsgs.any isTerminalPop then some 0 else none)) := by
  refine ⟨?_, ?_, ?_, ?_⟩
  · rw [mainA_failure]
    simp [isLog]
  · intro h
    obtain ⟨pre, -, hrun, hsig, heq⟩ := mainA_run ret msgs h
    rw [heq]
    cases msgs.any isTerminal <;> simp [hrun, hsig]
  · intro h
    have hf := mainB_failure o bmsgs hb h
    exact ⟨hf.1, hf.2.2.1, hf.2.2.2.2, hf.2.2.2.1⟩
  · intro h
    obtain ⟨pre, -, -, heq⟩ := mainB_run o bmsgs hb h
    have hp := (poll_loop_spec bmsgs).2.1
    rw [heq]
    cases bmsgs.any isTerminalPop <;> simp [popCount_append, hp] <;> omega

theorem playing_failure_skips_loop_witness :
    ((mainB ⟨true, true, true, true, true, true, true, true, true, .FAILURE⟩ [some .EOS]).2
        = some (-1) ∧
      popCount (mainB ⟨true, true, true, true, true, true, true, true, true, .FAILURE⟩
        [some .EOS]).1 = 0) ∧
    (mainA .NO_PREROLL [.BUFFERING 10, .EOS]).2
      = (if [GstMessage.BUFFERING 10, .EOS].any isTerminal then some 0 else none) :=
  have h := playing_failure_skips_loop .NO_PREROLL [.BUFFERING 10, .EOS]
    ⟨true, true, true, true, true, true, true, true, true, .FAILURE⟩ [some .EOS] rfl
  ⟨⟨(h.2.2.1 rfl).1, (h.2.2.1 rfl).2.2.2⟩, (h.2.1 (by decide)).2.2⟩

theorem g_str_has_prefix_iff (str pfx : String) :
    g_str_has_prefix str pfx = true ↔ ∃ rest : String, str = pfx ++ rest := by
  unfold g_str_has_prefix
  rw [beq_iff_eq]
  constructor
  · intro h
    refine ⟨⟨str.data.drop pfx.data.length⟩, ?_⟩
    apply String.ext
    rw [String.data_append]
    conv_lhs => rw [← List.take_append_drop pfx.data.length str.data, h]
  · rintro ⟨rest, rfl⟩
    rw [String.data_append]
    simp

theorem linkAttempts_append (xs ys : List Call) :
    linkAttempts (xs ++ ys) = linkAttempts xs ++ linkAttempts ys := by
  simp [linkAttempts, List.filterMap_append]

theorem pad_added_handler_audio (src : String) (new_pad : GstPad) (link : GstPadLinkReturn)
    (st : LinkState) (ha : isAudio new_pad = true) :
    Call.gst_element_get_static_pad .a_convert "sink" ∈ (pad_added_handler src new_pad link st).2 ∧
      Call.gst_element_get_static_pad .v_convert "sink" ∉ (pad_added_handler src new_pad link st).2 ∧
      (pad_added_handler src new_pad link st).1
        = (if st.a_linked = false ∧ link = .OK then { st with a_linked := true } else st) ∧
      linkAttempts (pad_added_handler src new_pad link st).2
        = (if st.a_linked then [] else [.a_convert]) ∧
      (st.a_linked = true →
        Call.g_print "Audio pad already linked. Ignoring.\n"
          ∈ (pad_added_handler src new_pad link st).2) := by
  unfold isAudio at ha
  rcases st with ⟨a, v⟩
  cases a <;> by_cases hl : link = .OK <;>
    simp [pad_added_handler, ha, hl, linkAttempts]

theorem pad_added_handler_video (src : String) (new_pad : GstPad) (link : GstPadLinkReturn)
    (st : LinkState) (hv : isVideo new_pad = true) :
    Call.gst_element_get_static_pad .v_convert "sink" ∈ (pad_added_handler src new_pad link st).2 ∧
      Call.gst_element_get_static_pad .a_convert "sink" ∉ (pad_added_handler src new_pad link st).2 ∧
      (pad_added_handler src new_pad link st).1
        = (if st.v_linked = false ∧ link = .OK then { st with v_linked := true } else st) ∧
      linkAttempts (pad_added_handler src new_pad link st).2
        = (if st.v_linked then [] else [.v_convert]) ∧
      (st.v_linked = true →
        Call.g_print "Video pad already linked. Ignoring.\n"
          ∈ (pad_added_handler src new_pad link st).2) := by
  simp only [isVideo, isAudio, Bool.and_eq_true, Bool.not_eq_true'] at hv
  rcases st with ⟨a, v⟩
  cases v <;> by_cases hl : link = .OK <;>
    simp [pad_added_handler, hv.1, hv.2, hl, linkAttempts]

theorem pad_added_handler_unknown (src : String) (new_pad : GstPad) (link : GstPadLinkReturn)
    (st : LinkState) (ha : isAudio new_pad = false) (hv : isVideo new_pad = false) :
    pad_added_handler src new_pad link st
      = (st, [.gst_element_get_static_pad .a_convert "a_sink",
              .gst_element_get_static_pad .v_convert "v_sink",
              .g_print ("Received new pad \x27" ++ new_pad.name ++ "\x27 from \x27" ++ src
                ++ "\x27:\n"),
              .gst_pad_get_current_caps,
              .g_print ("Unknown pad type \x27" ++ new_pad.type ++ "\x27. Ignoring.\n"),
              .gst_caps_unref]) := by
  simp only [isVideo, ha, Bool.not_false, Bool.true_and] at hv
  unfold isAudio at ha
  simp [pad_added_handler, ha, hv]

/-- C4: `pad_added_handler` picks its route from the content-type string by exact,
case-sensitive prefix only: it fetches the `sink` pad of the audio converter
exactly when the string starts with `audio/x-raw`; otherwise that of the video
converter exactly when the string starts with `video/x-raw`; otherwise it fetches
neither, logs the type as unknown, attempts no link and leaves the link state as
it was.  `audio/x-raw-int` takes the audio route; `text/x-raw` and `Audio/x-raw`
take neither. -/
theorem pad_route_by_type_string (src name : String) (t : String) (link : GstPadLinkReturn)
    (st : LinkState) :
    (Call.gst_element_get_static_pad .a_convert "sink"
        ∈ (pad_added_handler src ⟨name, t⟩ link st).2
        ↔ ∃ rest : String, t = "audio/x-raw" ++ rest) ∧
      (Call.gst_element_get_static_pad .v_convert "sink"
        ∈ (pad_added_handler src ⟨name, t⟩ link st).2
        ↔ (¬ ∃ rest : String, t = "audio/x-raw" ++ rest) ∧
            ∃ rest : String, t = "video/x-raw" ++ rest) ∧
      ((¬ ∃ rest : String, t = "audio/x-raw" ++ rest) →
        (¬ ∃ rest : String, t = "video/x-raw" ++ rest) →
        pad_added_handler src ⟨name, t⟩ link st
          = (st, [.gst_element_get_static_pad .a_convert "a_sink",
                  .gst_element_get_static_pad .v_convert "v_sink",
                  .g_print ("Received new pad \x27" ++ name ++ "\x27 from \x27" ++ src
                    ++ "\x27:\n"),
                  .gst_pad_get_current_caps,
                  .g_print ("Unknown pad type \x27" ++ t ++ "\x27. Ignoring.\n"),
                  .gst_caps_unref])) ∧
      Call.gst_element_get_static_pad .a_convert "sink"
        ∈ (pad_added_handler src ⟨name, "audio/x-raw-int"⟩ link st).2 ∧
      pad_added_handler src ⟨name, "text/x-raw"⟩ link st
        = (st, [.gst_element_get_static_pad .a_convert "a_sink",
                .gst_element_get_static_pad .v_convert "v_sink",
                .g_print ("Received new pad \x27" ++ name ++ "\x27 from \x27" ++ src
                  ++ "\x27:\n"),
                .gst_pad_get_current_caps,
                .g_print "Unknown pad type \x27text/x-raw\x27. Ignoring.\n",
                .gst_caps_unref]) ∧
      pad_added_handler src ⟨name, "Audio/x-raw"⟩ link st
        = (st, [.gst_element_get_static_pad .a_convert "a_sink",
                .gst_element_get_static_pad .v_convert "v_sink",
                .g_print ("Received new pad \x27" ++ name ++ "\x27 from \x27" ++ src
                  ++ "\x27:\n"),
                .gst_pad_get_current_caps,
                .g_print "Unknown pad type \x27Audio/x-raw\x27. Ignoring.\n",
                .gst_caps_unref]) := by
  have key : ∀ ty : String,
      (Call.gst_element_get_static_pad .a_convert "sink"
          ∈ (pad_added_handler src ⟨name, ty⟩ link st).2 ↔ isAudio ⟨name, ty⟩ = true) ∧
        (Call.gst_element_get_static_pad .v_convert "sink"
          ∈ (pad_added_handler src ⟨name, ty⟩ link st).2 ↔ isVideo ⟨name, ty⟩ = true) := by
    intro ty
    cases ha : isAudio ⟨name, ty⟩
    · cases hv : isVideo ⟨name, ty⟩
      · rw [pad_added_handler_unknown src ⟨name, ty⟩ link st ha hv]
        simp
      · have h := pad_added_handler_video src ⟨name, ty⟩ link st hv
        simp [h.1, h.2.1]
    · have h := pad_added_handler_audio src ⟨name, ty⟩ link st ha
      have hv : isVideo ⟨name, ty⟩ = false := by simp [isVideo, ha]
      simp [h.1, h.2.1, hv]
  have hA : ∀ ty : String, isAudio ⟨name, ty⟩ = true ↔ ∃ rest : String, ty = "audio/x-raw" ++ rest :=
    fun ty => g_str_has_prefix_iff ty "audio/x-raw"
  have hV : ∀ ty : String, isVideo ⟨name, ty⟩ = true
      ↔ (¬ ∃ rest : String, ty = "audio/x-raw" ++ rest) ∧
          ∃ rest : String, ty = "video/x-raw" ++ rest := by
    intro ty
    rw [← hA ty, ← g_str_has_prefix_iff ty "video/x-raw"]
    simp [isVideo]
  refine ⟨(key t).1.trans (hA t), (key t).2.trans (hV t), ?_, ?_, ?_, ?_⟩
  · intro h1 h2
    have ha : isAudio ⟨name, t⟩ = false := by
      rw [← Bool.not_eq_true, hA]; exact h1
    have hv : isVideo ⟨name, t⟩ = false := by
      rw [← Bool.not_eq_true, hV]; exact fun h => h2 h.2
    exact pad_added_handler_unknown src ⟨name, t⟩ link st ha hv
  · refine (key "audio/x-raw-int").1.mpr ?_
    show g_str_has_prefix "audio/x-raw-int" "audio/x-raw" = true
    decide
  · refine pad_added_handler_unknown src ⟨name, "text/x-raw"⟩ link st ?_ ?_
    · show g_str_has_prefix "text/x-raw" "audio/x-raw" = false
      decide
    · show (! g_str_has_prefix "text/x-raw" "audio/x-raw"
        && g_str_has_prefix "text/x-raw" "video/x-raw") = false
      decide
  · refine pad_added_handler_unknown src ⟨name, "Audio/x-raw"⟩ link st ?_ ?_
    · show g_str_has_prefix "Audio/x-raw" "audio/x-raw" = false
      decide
    · show (! g_str_has_prefix "Audio/x-raw" "audio/x-raw"
        && g_str_has_prefix "Audio/x-raw" "video/x-raw") = false
      decide

theorem pad_route_by_type_string_witness :
    pad_added_handler "source" ⟨"src_2", "application/x-subtitle"⟩ .OK ⟨false, false⟩
      = (⟨false, false⟩,
         [.gst_element_get_static_pad .a_convert "a_sink",
          .gst_element_get_static_pad .v_convert "v_sink",
          .g_print ("Received new pad \x27" ++ "src_2" ++ "\x27 from \x27" ++ "source"
            ++ "\x27:\n"),
          .gst_pad_get_current_caps,
          .g_print ("Unknown pad type \x27" ++ "application/x-subtitle" ++ "\x27. Ignoring.\n"),
          .gst_caps_unref]) :=
  (pad_route_by_type_string "source" "src_2" "application/x-subtitle" .OK ⟨false, false⟩).2.2.1
    (by rw [← g_str_has_prefix_iff]; decide) (by rw [← g_str_has_prefix_iff]; decide)

/-- C5: when `pad_added_handler` is invoked for two pads of the same content type
(both audio or both video) and the first invocation attempts a link that returns
`OK`, the second invocation prints that the pad is already linked, attempts no
link, and leaves the link state as the first invocation left it. -/
theorem second_pad_of_same_type_ignored (src1 src2 : String) (pad1 pad2 : GstPad)
    (link2 : GstPadLinkReturn) (st : LinkState)
    (hsame : (isAudio pad1 = true ∧ isAudio pad2 = true) ∨
      (isVideo pad1 = true ∧ isVideo pad2 = true))
    (hfirst : linkAttempts (pad_added_handler src1 pad1 .OK st).2 ≠ []) :
    linkAttempts
        (pad_added_handler src2 pad2 link2 (pad_added_handler src1 pad1 .OK st).1).2 = [] ∧
      (pad_added_handler src2 pad2 link2 (pad_added_handler src1 pad1 .OK st).1).1
        = (pad_added_handler src1 pad1 .OK st).1 ∧
      (isAudio pad1 = true →
        Call.g_print "Audio pad already linked. Ignoring.\n"
          ∈ (pad_added_handler src2 pad2 link2 (pad_added_handler src1 pad1 .OK st).1).2) ∧
      (isVideo pad1 = true →
        Call.g_print "Video pad already linked. Ignoring.\n"
          ∈ (pad_added_handler src2 pad2 link2 (pad_added_handler src1 pad1 .OK st).1).2) := by
  rcases hsame with ⟨h1, h2⟩ | ⟨h1, h2⟩
  · have f := pad_added_handler_audio src1 pad1 .OK st h1
    have hun : st.a_linked = false := by
      cases ha : st.a_linked
      · rfl
      · rw [f.2.2.2.1, ha] at hfirst
        simp at hfirst
    have hst : (pad_added_handler src1 pad1 .OK st).1 = { st with a_linked := true } := by
      rw [f.2.2.1]; simp [hun]
    have g := pad_added_handler_audio src2 pad2 link2 { st with a_linked := true } h2
    have hv : isVideo pad1 = false := by simp [isVideo, h1]
    rw [hst]
    refine ⟨by rw [g.2.2.2.1]; simp, by rw [g.2.2.1]; simp, fun _ => g.2.2.2.2 rfl, ?_⟩
    intro h
    rw [hv] at h
    cases h
  · have f := pad_added_handler_video src1 pad1 .OK st h1
    have hun : st.v_linked = false := by
      cases ha : st.v_linked
      · rfl
      · rw [f.2.2.2.1, ha] at hfirst
        simp at hfirst
    have hst : (pad_added_handler src1 pad1 .OK st).1 = { st with v_linked := true } := by
      rw [f.2.2.1]; simp [hun]
    have g := pad_added_handler_video src2 pad2 link2 { st with v_linked := true } h2
    have ha : isAudio pad1 = false := by
      simp only [isVideo, Bool.and_eq_true, Bool.not_eq_true'] at h1
      exact h1.1
    rw [hst]
    refine ⟨by rw [g.2.2.2.1]; simp, by rw [g.2.2.1]; simp, ?_, fun _ => g.2.2.2.2 rfl⟩
    intro h
    rw [ha] at h
    cases h

theorem second_pad_of_same_type_ignored_witness :
    linkAttempts
        (pad_added_handler "source" ⟨"src_1", "audio/x-raw"⟩ .OK
          (pad_added_handler "source" ⟨"src_0", "audio/x-raw"⟩ .OK ⟨false, false⟩).1).2 = [] ∧
      (pad_added_handler "source" ⟨"src_1", "audio/x-raw"⟩ .OK
          (pad_added_handler "source" ⟨"src_0", "audio/x-raw"⟩ .OK ⟨false, false⟩).1).1
        = (pad_added_handler "source" ⟨"src_0", "audio/x-raw"⟩ .OK ⟨false, false⟩).1 :=
  have h := second_pad_of_same_type_ignored "source" "source" ⟨"src_0", "audio/x-raw"⟩
    ⟨"src_1", "audio/x-raw"⟩ .OK ⟨false, false⟩ (Or.inl ⟨by decide, by decide⟩) (by decide)
  ⟨h.1, h.2.1⟩

theorem pad_added_handler_step (src : String) (c : Chain) (ev : GstPad × GstPadLinkReturn)
    (st : LinkState) :
    (linkAttempts (pad_added_handler src ev.1 ev.2 st).2).count c
        = (if ofType c ev.1 && !linked st c then 1 else 0) ∧
      linked (pad_added_handler src ev.1 ev.2 st).1 c
        = (linked st c || (ofType c ev.1 && !rejected ev)) := by
  rcases ev with ⟨pad, link⟩
  rcases st with ⟨a, v⟩
  cases ha : isAudio pad
  · cases hv : isVideo pad
    · rw [pad_added_handler_unknown src pad link ⟨a, v⟩ ha hv]
      cases c <;> cases a <;> cases v <;> simp [linkAttempts, linked, ofType, ha, hv]
    · have h := pad_added_handler_video src pad link ⟨a, v⟩ hv
      rw [h.2.2.1, h.2.2.2.1]
      by_cases hl : link = .OK <;>
        cases c <;> cases a <;> cases v <;> simp [linked, ofType, rejected, ha, hv, hl]
  · have h := pad_added_handler_audio src pad link ⟨a, v⟩ ha
    have hv : isVideo pad = false := by simp [isVideo, ha]
    rw [h.2.2.1, h.2.2.2.1]
    by_cases hl : link = .OK <;>
      cases c <;> cases a <;> cases v <;> simp [linked, ofType, rejected, ha, hv, hl]

theorem pad_added_seq_count (c : Chain) (evs : List (GstPad × GstPadLinkReturn))
    (st : LinkState) :
    (linkAttempts (pad_added_seq evs st).2).count c
        = (if linked st c then 0
          else min (evs.filter fun ev => ofType c ev.1).length
            (((evs.filter fun ev => ofType c ev.1).takeWhile rejected).length + 1)) ∧
      linked (pad_added_seq evs st).1 c
        = (linked st c || (evs.filter fun ev => ofType c ev.1).any fun ev => !rejected ev) := by
  induction evs generalizing st with
  | nil => simp [pad_added_seq, linkAttempts]
  | cons ev rest ih =>
      have hs := pad_added_handler_step "source" c ev st
      have ih2 := ih (pad_added_handler "source" ev.1 ev.2 st).1
      simp only [pad_added_seq, linkAttempts_append, List.count_append]
      rw [hs.1, ih2.1, ih2.2, hs.2]
      cases hof : ofType c ev.1 <;> cases hl : linked st c <;> cases hr : rejected ev <;>
        (simp [List.filter_cons, List.takeWhile_cons, hof, hr]; try omega)

/-- C7, as the code has it: over a whole session, for each chain, the number of
link attempts is zero when the `sink` pad of its converter is linked at the
start, and otherwise the number of pads of its type up to and including the
first whose link returns `OK` (all of them when no link does); so it is at most
one more than the number of rejected attempts, and at most one when no link is
rejected.  For a pad of the chain's type that finds the `sink` pad unlinked
exactly one link is attempted; when it returns `OK` the pad is linked from then
on, and when it is rejected the link state stays as it was and the next pad of
that type is attempted again. -/
theorem link_attempts_per_chain (c : Chain) (evs : List (GstPad × GstPadLinkReturn))
    (st : LinkState) :
    (linkAttempts (pad_added_seq evs st).2).count c
        = (if linked st c then 0
          else min (evs.filter fun ev => ofType c ev.1).length
            (((evs.filter fun ev => ofType c ev.1).takeWhile rejected).length + 1)) ∧
      linked (pad_added_seq evs st).1 c
        = (linked st c || (evs.filter fun ev => ofType c ev.1).any fun ev => !rejected ev) ∧
      (linkAttempts (pad_added_seq evs st).2).count c
        ≤ 1 + ((evs.filter fun ev => ofType c ev.1).takeWhile rejected).length ∧
      ((∀ ev ∈ evs, ev.2 = .OK) → (linkAttempts (pad_added_seq evs st).2).count c ≤ 1) ∧
      (linked st c = true → (linkAttempts (pad_added_seq evs st).2).count c = 0) ∧
      (∀ (src : String) (pad : GstPad) (link : GstPadLinkReturn),
        ofType c pad = true → linked st c = false →
          linkAttempts (pad_added_handler src pad link st).2 = [c] ∧
            (link = .OK → linked (pad_added_handler src pad link st).1 c = true) ∧
            (link ≠ .OK → (pad_added_handler src pad link st).1 = st)) ∧
      (∀ (src1 src2 : String) (pad1 pad2 : GstPad) (link1 link2 : GstPadLinkReturn),
        ofType c pad1 = true → ofType c pad2 = true → linked st c = false → link1 ≠ .OK →
          linkAttempts
            (pad_added_handler src2 pad2 link2 (pad_added_handler src1 pad1 link1 st).1).2
            = [c]) := by
  have hb := pad_added_seq_count c evs st
  have hstep : ∀ (src : String) (pad : GstPad) (link : GstPadLinkReturn),
      ofType c pad = true → linked st c = false →
        linkAttempts (pad_added_handler src pad link st).2 = [c] ∧
          (link = .OK → linked (pad_added_handler src pad link st).1 c = true) ∧
          (link ≠ .OK → (pad_added_handler src pad link st).1 = st) := by
    intro src pad link hof hl
    cases c with
    | a_convert =>
        have h := pad_added_handler_audio src pad link st hof
        have hl2 : st.a_linked = false := hl
        rw [h.2.2.1, h.2.2.2.1]
        refine ⟨by simp [hl2], fun hk => by simp [hl2, hk, linked], fun hk => by simp [hk]⟩
    | v_convert =>
        have h := pad_added_handler_video src pad link st hof
        have hl2 : st.v_linked = false := hl
        rw [h.2.2.1, h.2.2.2.1]
        refine ⟨by simp [hl2], fun hk => by simp [hl2, hk, linked], fun hk => by simp [hk]⟩
  have hle : (linkAttempts (pad_added_seq evs st).2).count c
      ≤ 1 + ((evs.filter fun ev => ofType c ev.1).takeWhile rejected).length := by
    rw [hb.1]
    split <;> omega
  refine ⟨hb.1, hb.2, hle, ?_, ?_, hstep, ?_⟩
  · intro hok
    have hz : ((evs.filter fun ev => ofType c ev.1).takeWhile rejected) = [] := by
      cases hf : (evs.filter fun ev => ofType c ev.1) with
      | nil => rfl
      | cons ev rest =>
          have hmem : ev ∈ evs.filter fun ev => ofType c ev.1 := by
            rw [hf]; exact List.mem_cons_self _ _
          have hev := hok ev (List.mem_filter.mp hmem).1
          simp [List.takeWhile_cons, rejected, hev]
    rw [hz] at hle
    simpa using hle
  · intro hl
    rw [hb.1, hl]
    rfl
  · intro src1 src2 pad1 pad2 link1 link2 h1 h2 hl hrej
    rw [(hstep src1 pad1 link1 h1 hl).2.2 hrej]
    exact (hstep src2 pad2 link2 h2 hl).1

theorem link_attempts_per_chain_witness :
    linkAttempts
        (pad_added_handler "source" ⟨"src_1", "audio/x-raw"⟩ .OK
          (pad_added_handler "source" ⟨"src_0", "audio/x-raw"⟩ .REFUSED ⟨false, false⟩).1).2
      = [.a_convert] ∧
    (linkAttempts (pad_added_seq
        [(⟨"src_0", "audio/x-raw"⟩, .OK), (⟨"src_1", "audio/x-raw"⟩, .OK)]
        ⟨false, false⟩).2).count .a_convert ≤ 1 :=
  ⟨(link_attempts_per_chain .a_convert [] ⟨false, false⟩).2.2.2.2.2.2
      "source" "source" ⟨"src_0", "audio/x-raw"⟩ ⟨"src_1", "audio/x-raw"⟩ .REFUSED .OK
      (by decide) (by decide) rfl (by decide),
    (link_attempts_per_chain .a_convert
      [(⟨"src_0", "audio/x-raw"⟩, .OK), (⟨"src_1", "audio/x-raw"⟩, .OK)] ⟨false, false⟩).2.2.2.1
      (by decide)⟩

/-- C7, as stated, fails: when the link of a first audio pad is refused, a second
audio pad is linked too, so two link attempts target the audio chain in one
session, and the chain ends up connected. -/
theorem failed_link_is_retried :
    linkAttempts (pad_added_seq
        [(⟨"src_0", "audio/x-raw"⟩, .REFUSED), (⟨"src_1", "audio/x-raw"⟩, .OK)]
        ⟨false, false⟩).2 = [.a_convert, .a_convert] ∧
      (linkAttempts (pad_added_seq
        [(⟨"src_0", "audio/x-raw"⟩, .REFUSED), (⟨"src_1", "audio/x-raw"⟩, .OK)]
        ⟨false, false⟩).2).count .a_convert = 2 ∧
      (pad_added_seq
        [(⟨"src_0", "audio/x-raw"⟩, .REFUSED), (⟨"src_1", "audio/x-raw"⟩, .OK)]
        ⟨false, false⟩).1 = ⟨true, false⟩ := by
  decide

end GstTutorial
